import Mathlib

set_option maxRecDepth 8000

/-!
Verification development for the TenderSight-AI tender-discovery pipeline
(`main.py` and `cloud_main.py`).

The Python program is shallowly embedded:
* JSON values produced by `json.loads` on an LLM response are the inductive `Jv`
  (JSON numbers are modelled as integers; no claim depends on float values).
* Each external boundary call is an oracle argument: the combined
  `llm.invoke` + `json.loads` outcome of an LLM-backed component is an
  `Option Jv` (`none` = the call raised or the response was not valid JSON),
  the plain-text summary call is an `Option String`, and every Playwright
  browser operation is a field of a `BrowserOracle` whose failures carry the
  exception text.
* Functions that can raise a Python exception past their own boundary return
  `Except PyErr _`; functions whose body catches everything are total.
-/

/-- A JSON value as returned by Python's `json.loads` (numbers modelled as
integers; reachable object field lists have pairwise-distinct keys). -/
inductive Jv where
  | jnull
  | jbool (b : Bool)
  | jint (n : Int)
  | jstr (s : String)
  | jarr (xs : List Jv)
  | jobj (fields : List (String × Jv))

/-- A Python exception escaping a modelled function. -/
inductive PyErr where
  | attributeError (msg : String)
  | typeError (msg : String)
  | other (msg : String)
deriving DecidableEq

/-- First binding of `key` in a dict's field list (dict keys are unique, so
first-match lookup is exact). -/
def lookupField : List (String × Jv) → String → Option Jv
  | [], _ => none
  | (k, v) :: rest, key => if k = key then some v else lookupField rest key

/-- Python `d.get(key, default)`: raises `AttributeError` when `d` is not a
dict (lists, strings, numbers have no `.get`). -/
def dictGet (d : Jv) (key : String) (dflt : Jv) : Except PyErr Jv :=
  match d with
  | .jobj fields => .ok ((lookupField fields key).getD dflt)
  | _ => .error (.attributeError "get")

/-- Python truthiness of a JSON value. -/
def pyTruthy : Jv → Bool
  | .jnull => false
  | .jbool b => b
  | .jint n => n != 0
  | .jstr s => !s.data.isEmpty
  | .jarr xs => !xs.isEmpty
  | .jobj fields => !fields.isEmpty

/-- Whether a JSON value is a Python dict. -/
def Jv.isObj : Jv → Bool
  | .jobj _ => true
  | _ => false

/-! ### Python string primitives (code-point based, like CPython) -/

/-- Python `str.lower()` (ASCII-adequate for every string this program builds). -/
def pyLower (s : String) : String := String.mk (s.data.map Char.toLower)

/-- Python slicing `s[:n]`. -/
def pyTake (n : Nat) (s : String) : String := String.mk (s.data.take n)

/-- Characters stripped by Python `str.strip()` / matched by the regex `\s`
class (ASCII whitespace). -/
def isSpaceChar (c : Char) : Bool :=
  c = ' ' || c = '\t' || c = '\n' || c = '\x0d' || c = '\x0b' || c = '\x0c'

/-- Python `str.strip()`. -/
def pyStrip (s : String) : String :=
  String.mk (((s.data.dropWhile isSpaceChar).reverse.dropWhile isSpaceChar).reverse)

/-- Python `sep.join(list_of_str)`. -/
def joinWith (sep : String) : List String → String
  | [] => ""
  | [x] => x
  | x :: xs => x ++ sep ++ joinWith sep xs

/-- Boolean list-prefix test. -/
def listPrefixOf : List Char → List Char → Bool
  | [], _ => true
  | _ :: _, [] => false
  | a :: as, b :: bs => a = b && listPrefixOf as bs

/-- Boolean contiguous-sublist test (Python `needle in hay` on strings). -/
def listSubOf (needle : List Char) : List Char → Bool
  | [] => needle.isEmpty
  | c :: cs => listPrefixOf needle (c :: cs) || listSubOf needle cs

/-- Python `sub in hay` for strings. -/
def containsSub (hay sub : String) : Bool := listSubOf sub.data hay.data

/-- Python `str.title()`: a letter is uppercased after a non-letter and
lowercased after a letter. -/
def pyTitleGo : Bool → List Char → List Char
  | _, [] => []
  | prevAlpha, c :: rest =>
    (if c.isAlpha then (if prevAlpha then c.toLower else c.toUpper) else c)
      :: pyTitleGo c.isAlpha rest

/-- Python `str.title()`. -/
def pyTitle (s : String) : String := String.mk (pyTitleGo false s.data)

/-- Rendering `None` / a string in an f-string, as `dict.get` hands it back. -/
def pyOptStr : Option String → String
  | none => "None"
  | some s => s

/-! ### Python `repr`/`str` of JSON-like values (used by `str(tender)` and by
f-string interpolation of values read out of LLM JSON) -/

/-- Escape the body of a Python string repr delimited by quote `q`. -/
def pyEscape (q : Char) : List Char → List Char
  | [] => []
  | c :: cs =>
    (if c = '\\' then ['\\', '\\']
     else if c = q then ['\\', q]
     else if c = '\n' then ['\\', 'n']
     else if c = '\x0d' then ['\\', 'r']
     else if c = '\t' then ['\\', 't']
     else [c]) ++ pyEscape q cs

/-- Python `repr` of a string: single quotes, or double quotes when the string
contains a single quote but no double quote. -/
def pyReprStr (s : String) : String :=
  let q : Char := if s.data.contains '\x27' && !(s.data.contains '\x22') then '\x22' else '\x27'
  String.mk (q :: pyEscape q s.data ++ [q])

mutual
/-- Python `repr` of a JSON value. -/
def pyReprJ : Jv → String
  | .jnull => "None"
  | .jbool true => "True"
  | .jbool false => "False"
  | .jint n => toString n
  | .jstr s => pyReprStr s
  | .jarr xs => "[" ++ pyReprArr xs ++ "]"
  | .jobj fs => "\x7b" ++ pyReprObj fs ++ "\x7d"

def pyReprArr : List Jv → String
  | [] => ""
  | [x] => pyReprJ x
  | x :: xs => pyReprJ x ++ ", " ++ pyReprArr xs

def pyReprObj : List (String × Jv) → String
  | [] => ""
  | [(k, v)] => pyReprStr k ++ ": " ++ pyReprJ v
  | (k, v) :: fs => pyReprStr k ++ ": " ++ pyReprJ v ++ ", " ++ pyReprObj fs
end

/-- Python `str` of a JSON value (equals `repr` except at a top-level string). -/
def pyStrJ : Jv → String
  | .jstr s => s
  | v => pyReprJ v

/-- Python `', '.join(v)` on a value read out of LLM JSON: joins a string's
characters, a list of strings, or a dict's keys; anything else (including a
list with a non-string element) raises `TypeError`. -/
def strOfJvList : List Jv → Option (List String)
  | [] => some []
  | .jstr s :: rest => (strOfJvList rest).map (s :: ·)
  | _ => none

def pyJoinSep (sep : String) (v : Jv) : Except PyErr String :=
  match v with
  | .jstr s => .ok (joinWith sep (s.data.map (fun c => String.mk [c])))
  | .jarr xs =>
    match strOfJvList xs with
    | some ss => .ok (joinWith sep ss)
    | none => .error (.typeError "join")
  | .jobj fields => .ok (joinWith sep (fields.map (·.1)))
  | _ => .error (.typeError "join")

/-- `.ok`-ness of a modelled Python result. -/
def exceptOk {α : Type} : Except PyErr α → Bool
  | .ok _ => true
  | .error _ => false

/-! ### Regex machinery for `parse_user_profile` (main.py lines 72-152,
duplicated verbatim in cloud_main.py lines 39-116)

`re.search(LABEL + r"[:\s]+([^\n,]+)", text, re.IGNORECASE)` is embedded
directly: scan start positions left to right, match the label
case-insensitively, then one-or-more `[:\s]` characters (greedy, giving back
characters when the capture group would otherwise be empty), then a maximal
non-empty run of characters other than `\n` and `,` as the capture. -/

/-- The regex class `[:\s]`. -/
def isSepChar (c : Char) : Bool := c = ':' || isSpaceChar c

/-- The regex class `[^\n,]`. -/
def isCapChar (c : Char) : Bool := !(c = '\n' || c = ',')

/-- Case-insensitive prefix test of a lowercase pattern against original text. -/
def lcPrefixOf : List Char → List Char → Bool
  | [], _ => true
  | _ :: _, [] => false
  | p :: ps, c :: cs => p = c.toLower && lcPrefixOf ps cs

/-- Backtracking over the greedy `[:\s]+`: try `j+1` separator characters,
largest first, and accept the first split whose `[^\n,]+` capture is
non-empty. -/
def sepBacktrack (rest : List Char) : Nat → Option (List Char)
  | 0 => none
  | j + 1 =>
    let cap := (rest.drop (j + 1)).takeWhile isCapChar
    if cap.isEmpty then sepBacktrack rest j else some cap

/-- Match `[:\s]+([^\n,]+)` at the head of `rest`. -/
def sepCapture (rest : List Char) : Option (List Char) :=
  sepBacktrack rest ((rest.takeWhile isSepChar).length)

/-- `re.search` for one label-prefixed pattern: first start position whose
label matches (case-insensitively) and whose tail admits the capture. -/
def searchLabel (label : List Char) : List Char → Option (List Char)
  | [] => none
  | c :: cs =>
    match (if lcPrefixOf label (c :: cs) then sepCapture ((c :: cs).drop label.length) else none) with
    | some cap => some cap
    | none => searchLabel label cs

/-- One pattern of the company/location families: captured group, `.strip()`ed. -/
def findLabelCapture (label : String) (text : String) : Option String :=
  (searchLabel label.data text.data).map (fun cap => pyStrip (String.mk cap))

/-- First pattern in the ordered list that matches (`for pattern in ...: break`). -/
def findFirstLabel (labels : List String) (text : String) : Option String :=
  labels.findSome? (fun l => findLabelCapture l text)

/-- The regex class `[0-9,]` of the budget patterns. -/
def isDigitComma (c : Char) : Bool := c.isDigit || c = ','

/-- The unit alternatives `(?:lakh|crore|million|k)`, in alternation order. -/
def unit_words : List String := ["lakh", "crore", "million", "k"]

/-- Match `[:\s]+([0-9,]+(?:\s*(?:lakh|crore|million|k))?)` at the head of
`rest` (the separator and digit classes are disjoint, so no backtracking
between them can occur; the optional unit group matches greedily or is empty). -/
def budgetCapture (rest : List Char) : Option (List Char) :=
  let k := (rest.takeWhile isSepChar).length
  if k = 0 then none
  else
    let tail := rest.drop k
    let digits := tail.takeWhile isDigitComma
    if digits.isEmpty then none
    else
      let after := tail.drop digits.length
      let ws := after.takeWhile isSpaceChar
      let after2 := after.drop ws.length
      match unit_words.find? (fun u => lcPrefixOf u.data after2) with
      | some u => some (digits ++ ws ++ after2.take u.length)
      | none => some digits

/-- `re.search` for one budget pattern. -/
def searchBudgetLabel (label : List Char) : List Char → Option (List Char)
  | [] => none
  | c :: cs =>
    match (if lcPrefixOf label (c :: cs) then budgetCapture ((c :: cs).drop label.length) else none) with
    | some cap => some cap
    | none => searchBudgetLabel label cs

/-- First budget pattern that matches, `.strip()`ed. -/
def findFirstBudget (labels : List String) (text : String) : Option String :=
  labels.findSome? (fun l => (searchBudgetLabel l.data text.data).map (fun cap => pyStrip (String.mk cap)))

/-- Word characters for the regex `\b` boundary. -/
def isWordChar (c : Char) : Bool := c.isAlphanum || c = '_'

/-- The stage-keyword alternatives of the `re.findall` pattern, in alternation
order (no word is a prefix of another, so at most one can match at a position). -/
def stage_words : List String := ["innovation", "research", "development", "prototype", "pilot", "scale", "growth"]

/-- `re.findall(r"\b(?:innovation|...|growth)\b", text, re.IGNORECASE)`:
non-overlapping left-to-right matches; `prevWord` records whether the previous
character was a word character (the left `\b`).  Since the program lowercases
every match (`kw.lower()`) and the alternatives are fixed lowercase words, the
vocabulary word itself is returned.  `(c :: cs).drop w.length` is written
`cs.drop (w.length - 1)` (equal for the non-empty vocabulary words), and the
recursion is driven by a `fuel` counter initialised to the text length: every
step consumes at least one character and one unit of fuel, so the fuel never
runs out before the text does. -/
def findallStages (fuel : Nat) (l : List Char) (prevWord : Bool) : List String :=
  match fuel, l with
  | 0, _ => []
  | _, [] => []
  | fuel + 1, c :: cs =>
    if prevWord then findallStages fuel cs (isWordChar c)
    else
      match stage_words.find? (fun w => lcPrefixOf w.data (c :: cs) && !isWordChar ((cs.drop (w.length - 1)).headD '\n')) with
      | some w => w :: findallStages fuel (cs.drop (w.length - 1)) true
      | none => findallStages fuel cs (isWordChar c)

/-- Python `list(set(xs))`.  CPython's set iteration order is unspecified
(hash-randomised); the model fixes first-occurrence order.  Every property
proved below about the keyword list is membership/emptiness-based and hence
independent of this choice; the derived search string inherits it. -/
def pySetList (seen : List String) : List String → List String
  | [] => []
  | x :: xs => if x ∈ seen then pySetList seen xs else x :: pySetList (x :: seen) xs

/-! ### Profile Extractor (`parse_user_profile`, main.py lines 72-152 =
cloud_main.py lines 39-116) -/

/-- The `profile_data` dict.  All keys are always present (initialised up
front), so `profile.get(key, default)` never falls back to the default; a
`None` value renders as `"None"` in f-strings.  `preferences` is initialised
to the empty dict and never written or read. -/
structure Profile where
  company_name : Option String
  industry : Option String
  location : Option String
  budget_range : Option String
  company_size : Option String
  keywords : List String
  preferences : List (String × Jv)

def company_patterns : List String := ["company", "startup", "organization", "firm"]

def industry_keywords : List String :=
  ["tech", "healthcare", "fintech", "agriculture", "manufacturing",
   "education", "retail", "logistics", "renewable energy", "ai", "blockchain"]

def location_patterns : List String := ["location", "based in", "from", "city"]

def budget_patterns : List String := ["budget", "funding", "investment"]

def parse_user_profile (user_input : String) : Profile :=
  let company_name := findFirstLabel company_patterns user_input
  -- `if keyword.lower() in user_input.lower()`, in vocabulary order
  let found_industries := industry_keywords.filter
    (fun keyword => containsSub (pyLower user_input) (pyLower keyword))
  -- `if found_industries: profile["industry"] = found_industries[0]; ... extend`
  let industry := found_industries.head?
  let industryKeywords := if found_industries.isEmpty then [] else found_industries
  let location := findFirstLabel location_patterns user_input
  let budget_range := findFirstBudget budget_patterns user_input
  let additional_keywords := findallStages user_input.data.length user_input.data false
  let keywords := pySetList [] (industryKeywords ++ additional_keywords.map pyLower)
  { company_name, industry, location, budget_range,
    company_size := none, keywords, preferences := [] }

/-! ### Tender candidates -/

/-- A tender dict as built by the two tender sources.  Every construction site
writes `title`, `deadline`, `link`, `source` first; the optional keys
(`keywords_matched`, `error`, `note`, `description`) are present only at the
sites that write them, in that insertion order. -/
structure TenderCand where
  title : String
  deadline : String
  link : String
  source : String
  keywords_matched : Option String := none
  error : Option String := none
  note : Option String := none
  description : Option String := none
deriving DecidableEq

/-- Python `str(tender)`: dict repr with the present keys in insertion order. -/
def strTender (t : TenderCand) : String :=
  let base := [("title", t.title), ("deadline", t.deadline), ("link", t.link), ("source", t.source)]
  let extra := [("keywords_matched", t.keywords_matched), ("error", t.error),
                ("note", t.note), ("description", t.description)]
  let present := base ++ extra.filterMap (fun kv => kv.2.map (fun v => (kv.1, v)))
  "\x7b" ++ joinWith ", " (present.map (fun kv => pyReprStr kv.1 ++ ": " ++ pyReprStr kv.2)) ++ "\x7d"

/-! ### Static Tender Source (`get_sample_tenders`, cloud_main.py lines 118-172) -/

def gemUrl : String := "https://gem.gov.in"
def eproUrl : String := "https://eprocure.gov.in"
def siUrl : String := "https://www.startupindia.gov.in"

def portals : List String := [gemUrl, eproUrl, siUrl]

/-- Truthiness of the `location` argument (`if location:`); the orchestrator
passes `profile["location"]`, which is `None` when no pattern matched. -/
def pyTruthyOptStr : Option String → Bool
  | none => false
  | some s => !(s == "")

def gemSampleCand (keywords : String) : TenderCand :=
  { title := pyTitle keywords ++ " Solutions for Government Sector"
    deadline := "Check Portal for Details"
    link := "https://gem.gov.in"
    source := "GeM"
    keywords_matched := some keywords
    description := some ("A tender for " ++ keywords ++ " solutions across government departments.") }

def eproSampleCand (keywords : String) : TenderCand :=
  { title := "Request for Proposals: " ++ pyTitle keywords ++ " Implementation"
    deadline := "Check Portal for Details"
    link := "https://eprocure.gov.in"
    source := "eProcure"
    keywords_matched := some keywords
    description := some ("Government initiative seeking " ++ keywords ++ " solutions for enhancing public services.") }

def siSampleCand (keywords : String) : TenderCand :=
  { title := "Innovation Grant for " ++ pyTitle keywords ++ " Startups"
    deadline := "Check Portal for Details"
    link := "https://www.startupindia.gov.in"
    source := "Startup India"
    keywords_matched := some keywords
    description := some ("Funding opportunity for startups working in " ++ keywords ++ " sector.") }

/-- The 4th, location-specific candidate appended when `location` is truthy. -/
def locationCand (keywords loc : String) : TenderCand :=
  { title := "Local " ++ pyTitle keywords ++ " Initiative in " ++ loc
    deadline := "Check Portal for Details"
    link := "https://gem.gov.in"
    source := "GeM"
    keywords_matched := some (keywords ++ " " ++ loc)
    description := some ("Local government tender for " ++ keywords ++ " solutions in " ++ loc ++ " region.") }

/-- `get_sample_tenders`.  (`keywords_list = keywords.split()` in the source is
computed but never used.) -/
def get_sample_tenders (keywords : String) (location : Option String) : List TenderCand :=
  let base := [gemSampleCand keywords, eproSampleCand keywords, siSampleCand keywords]
  match location with
  | some loc => if !(loc == "") then base ++ [locationCand keywords loc] else base
  | none => base

/-! ### Live Tender Source (`scrape_tender_portals`, main.py lines 155-333)

Browser operations are oracle fields.  `page.goto` + the following
`wait_for_load_state` are merged into one `nav` outcome (both raise into the
same handler with nothing in between); the GeM fill/press loop over
`search_selectors` suppresses every failure (`try/except/continue`) and page
state is not modelled, so it has no observable effect; `time.sleep` cannot
fail.  A failure carries the exception text `str(e)`. -/

/-- An element whose `inner_text()` is read (outcome supplied per element). -/
structure TitleEl where
  txt : Except String String

/-- A GeM result element: `result.query_selector("a, .title, .tender-title")`. -/
structure GemEl where
  titleEl : Except String (Option TitleEl)

/-- An eProcure table row: `row.query_selector_all("td")` and each cell's
`inner_text()`. -/
structure EproRow where
  cells : Except String (List (Except String String))

/-- A Startup-India result: `result.query_selector("h3, .title, a")`. -/
structure SIEl where
  titleEl : Except String (Option TitleEl)

/-- Outcome of one of the two playwright context-manager calls of
`with sync_playwright() as p:` — the entry (`__enter__`, driver start) or the
exit (`__exit__`, i.e. `p.stop()`, run after the body completes whenever the
entry succeeded).  The enclosing handler catches only `ImportError`; any
other exception from either call propagates out of `scrape_tender_portals`. -/
inductive PwCtxOutcome where
  | importErr
  | otherErr (msg : String)
  | ok
deriving DecidableEq

structure GemPortal where
  nav : Except String Unit
  wait2 : Except String Unit
  results : Nat → Except String (List GemEl)

structure EproPortal where
  nav : Except String Unit
  fill : Except String Unit
  click : Except String Unit
  wait : Except String Unit
  rows : Except String (List EproRow)

structure SIPortal where
  nav : Except String Unit
  fill : Except String Unit
  press : Except String Unit
  wait : Except String Unit
  results : Except String (List SIEl)

structure BrowserOracle where
  /-- `sync_playwright().__enter__` at the `with` statement. -/
  enter : PwCtxOutcome
  /-- `p.chromium.launch(...)` and `browser.new_page()` (merged: both raise
  into the same inner handler with nothing between them). -/
  launch : Except String Unit
  gem : GemPortal
  epro : EproPortal
  si : SIPortal
  /-- `browser.close()` (a failure lands in the inner `except Exception`). -/
  close : Except String Unit
  /-- The context-manager exit `p.stop()` (`__exit__`), an external driver
  call that runs after the `with` body completes; it is outside the inner
  handler, so only the outer `except ImportError` can catch its failure. -/
  stop : PwCtxOutcome

/-- Segment before the next `//`, for `str.split("//")`. -/
def hostTakeUntil : List Char → List Char
  | [] => []
  | '/' :: '/' :: _ => []
  | c :: rest => c :: hostTakeUntil rest

/-- Segment after the first `//`, for `str.split("//")`. -/
def hostAfterSlashes : List Char → List Char
  | [] => []
  | '/' :: '/' :: rest => hostTakeUntil rest
  | _ :: rest => hostAfterSlashes rest

/-- `portal.split("//")[1]` (each of the three fixed URLs contains `//`). -/
def portalHost (url : String) : String :=
  String.mk (hostAfterSlashes url.data)

/-- The per-portal error entry of the catch-all handler (lines 281-290); note
there is no `keywords_matched` key. -/
def errCand (portal : String) (e : String) : TenderCand :=
  { title := "Error accessing " ++ portalHost portal
    deadline := "N/A"
    link := portal
    source := portalHost portal
    error := some e }

/-- The per-portal sample entry appended when the browser fails to start
(lines 293-305). -/
def browserFallbackCand (keywords : String) (portal : String) : TenderCand :=
  { title := "Sample tender for " ++ keywords ++ " on " ++ portalHost portal
    deadline := "Check Portal"
    link := portal
    source := portalHost portal
    keywords_matched := some keywords
    note := some "Using sample data (browser automation unavailable)" }

/-- The per-portal fallback entry of the `except ImportError` handler
(lines 306-318); the source misspells "Tendor". -/
def importFallbackCand (keywords : String) (portal : String) : TenderCand :=
  { title := "Tendor opportunities for " ++ keywords ++ " on " ++ portalHost portal
    deadline := "Check Portal"
    link := portal
    source := portalHost portal
    keywords_matched := some keywords
    note := some "Using fallback data (Playwright not available)" }

/-- The final fallback entry (lines 320-331). -/
def genericCand (keywords : String) : TenderCand :=
  { title := "Government tenders related to " ++ keywords
    deadline := "Check Available Portals"
    link := "https://gem.gov.in"
    source := "Tender Portal"
    keywords_matched := some keywords
    note := some "Sample data only" }

/-- A scraped GeM entry (lines 208-216). -/
def gemScrapedCand (titleText keywords : String) : TenderCand :=
  { title := pyTake 100 (pyStrip titleText)
    deadline := "Check Portal"
    link := gemUrl
    source := "GeM"
    keywords_matched := some keywords }

/-- The GeM `for result in results[:5]` loop: an exception while reading an
element escapes to the per-portal handler, which appends an error entry after
the entries already collected. -/
def gemCollect (keywords : String) : List GemEl → List TenderCand
  | [] => []
  | el :: rest =>
    match el.titleEl with
    | .error e => [errCand gemUrl e]
    | .ok none => gemCollect keywords rest
    | .ok (some t) =>
      match t.txt with
      | .error e => [errCand gemUrl e]
      | .ok s => gemScrapedCand s keywords :: gemCollect keywords rest

/-- The GeM `for selector in result_selectors` loop (4 selectors, `break` on
the first non-empty result list); `fuel` counts the selectors left. -/
def gemSelectorTry (g : GemPortal) (keywords : String) (idx : Nat) : Nat → List TenderCand
  | 0 => []
  | fuel + 1 =>
    match g.results idx with
    | .error e => [errCand gemUrl e]
    | .ok rs => if rs.isEmpty then gemSelectorTry g keywords (idx + 1) fuel
                else gemCollect keywords (rs.take 5)

/-- The gem.gov.in branch (lines 175-217). -/
def gemScrape (g : GemPortal) (keywords : String) : List TenderCand :=
  match g.nav with
  | .error e => [errCand gemUrl e]
  | .ok _ =>
    -- search_selectors fill/press loop: every failure suppressed, no observable effect
    match g.wait2 with
    | .error e => [errCand gemUrl e]
    | .ok _ => gemSelectorTry g keywords 0 4

/-- The eProcure inner fallback entry (lines 239-247). -/
def eproFallbackCand (keywords : String) : TenderCand :=
  { title := "Tenders available for " ++ keywords
    deadline := "Check Portal"
    link := eproUrl
    source := "eProcure"
    keywords_matched := some keywords }

/-- A scraped eProcure entry (lines 229-237). -/
def eproScrapedCand (cellText keywords : String) : TenderCand :=
  { title := pyTake 100 (pyStrip cellText)
    deadline := "Check Portal"
    link := eproUrl
    source := "eProcure"
    keywords_matched := some keywords }

/-- The eProcure `for row in rows[:3]` loop; an exception lands in the inner
handler, which appends the single fallback entry after any collected rows. -/
def eproCollect (keywords : String) : List EproRow → List TenderCand
  | [] => []
  | r :: rest =>
    match r.cells with
    | .error _ => [eproFallbackCand keywords]
    | .ok cells =>
      match cells with
      | c0 :: _ :: _ =>  -- len(cells) >= 2
        match c0 with
        | .error _ => [eproFallbackCand keywords]
        | .ok s => eproScrapedCand s keywords :: eproCollect keywords rest
      | _ => eproCollect keywords rest

/-- The eprocure.gov.in branch (lines 219-247). -/
def eproScrape (ep : EproPortal) (keywords : String) : List TenderCand :=
  match ep.nav with
  | .error e => [errCand eproUrl e]
  | .ok _ =>
    match ep.fill with
    | .error _ => [eproFallbackCand keywords]
    | .ok _ =>
      match ep.click with
      | .error _ => [eproFallbackCand keywords]
      | .ok _ =>
        match ep.wait with
        | .error _ => [eproFallbackCand keywords]
        | .ok _ =>
          match ep.rows with
          | .error _ => [eproFallbackCand keywords]
          | .ok rows => eproCollect keywords (rows.take 3)

/-- The Startup-India inner fallback entry (lines 268-277). -/
def siFallbackCand (keywords : String) : TenderCand :=
  { title := "Startup grants available for " ++ keywords
    deadline := "Check Portal"
    link := siUrl
    source := "Startup India"
    keywords_matched := some keywords }

/-- A scraped Startup-India entry (lines 258-267). -/
def siScrapedCand (titleText keywords : String) : TenderCand :=
  { title := pyTake 100 (pyStrip titleText)
    deadline := "Check Portal"
    link := siUrl
    source := "Startup India"
    keywords_matched := some keywords }

/-- The Startup-India `for result in results[:3]` loop (inner handler → single
fallback entry after any collected results). -/
def siCollect (keywords : String) : List SIEl → List TenderCand
  | [] => []
  | el :: rest =>
    match el.titleEl with
    | .error _ => [siFallbackCand keywords]
    | .ok none => siCollect keywords rest
    | .ok (some t) =>
      match t.txt with
      | .error _ => [siFallbackCand keywords]
      | .ok s => siScrapedCand s keywords :: siCollect keywords rest

/-- The startupindia.gov.in branch (lines 249-277). -/
def siScrape (sp : SIPortal) (keywords : String) : List TenderCand :=
  match sp.nav with
  | .error e => [errCand siUrl e]
  | .ok _ =>
    match sp.fill with
    | .error _ => [siFallbackCand keywords]
    | .ok _ =>
      match sp.press with
      | .error _ => [siFallbackCand keywords]
      | .ok _ =>
        match sp.wait with
        | .error _ => [siFallbackCand keywords]
        | .ok _ =>
          match sp.results with
          | .error _ => [siFallbackCand keywords]
          | .ok rs => siCollect keywords (rs.take 3)

/-- `if not tender_data:` final fallback (lines 320-331). -/
def ensureNonEmpty (keywords : String) (l : List TenderCand) : List TenderCand :=
  if l.isEmpty then [genericCand keywords] else l

/-- `scrape_tender_portals` (main.py lines 155-333).  The `location` parameter
is accepted and never used, as in the source.  When the entry succeeded, the
context-manager exit `p.stop()` runs after the `with` body (the inner
`try/except Exception` having already resolved launch/portal/close failures
into fallback entries); a non-`ImportError` failure of the entry or of the
exit is caught by no handler and propagates, while an `ImportError` from
either lands in the outer handler, which appends its fallback entries for all
portals to whatever was already collected. -/
def scrape_tender_portals (B : BrowserOracle) (keywords : String)
    (location : Option String) : Except PyErr (List TenderCand) :=
  match B.enter with
  | .importErr => .ok (ensureNonEmpty keywords (portals.map (importFallbackCand keywords)))
  | .otherErr msg => .error (.other msg)
  | .ok =>
    let collected :=
      match B.launch with
      | .error _ => portals.map (browserFallbackCand keywords)
      | .ok _ =>
        let scraped := gemScrape B.gem keywords ++ eproScrape B.epro keywords
                        ++ siScrape B.si keywords
        match B.close with
        | .ok _ => scraped
        | .error _ => scraped ++ portals.map (browserFallbackCand keywords)
    match B.stop with
    | .ok => .ok (ensureNonEmpty keywords collected)
    | .importErr =>
      .ok (ensureNonEmpty keywords (collected ++ portals.map (importFallbackCand keywords)))
    | .otherErr msg => .error (.other msg)

/-! ### LLM-backed components (mirrored verbatim between main.py and
cloud_main.py) -/

/-- Per-candidate outcomes of the three LLM boundary calls the orchestrator
loop makes: `parseResp i` / `eligResp i` are the combined
`llm.invoke` + `json.loads` outcome (`none` = the call raised or the content
was not valid JSON) for candidate index `i`; `summResp i` is the summary
call's text content (`none` = the call raised). -/
structure LLMOracle where
  parseResp : Nat → Option Jv
  eligResp : Nat → Option Jv
  summResp : Nat → Option String

/-- `parse_tender_document` (main.py lines 336-370 = cloud_main.py 174-209).
The prompt embeds `tender_content[:2000]`; `resp` is the boundary outcome.
The bare `except:` makes the function total. -/
def parse_tender_document (resp : Option Jv) (tender_content : String) : Jv :=
  match resp with
  | some v => v
  | none =>
    .jobj [("title", .jstr "Document Parse Error"),
           ("description", .jstr (pyTake 200 tender_content ++ "...")),
           ("deadline", .jnull),
           ("budget_range", .jnull),
           ("eligibility_criteria", .jstr "Review document manually"),
           ("application_requirements", .jstr "Review document manually"),
           ("contact_details", .jnull),
           ("tender_id", .jnull)]

/-- The fixed optimistic default returned by `check_eligibility` on failure. -/
def eligibilityFallback : Jv :=
  .jobj [("eligible", .jbool true),
         ("match_score", .jint 75),
         ("reasons", .jarr [.jstr "General eligibility assumed"]),
         ("missing_requirements", .jarr [.jstr "Manual review required"])]

/-- `check_eligibility` (main.py lines 373-408 = cloud_main.py 211-247).
The prompt f-string calls `tender_data.get(...)` four times before the
`try:` block, raising `AttributeError` when `tender_data` is not a dict
(`user_profile` is always a dict, so its `get` calls cannot raise); the
prompt text itself is not modelled since `resp` supplies the response. -/
def check_eligibility (resp : Option Jv) (tender_data : Jv) (user_profile : Profile) :
    Except PyErr Jv :=
  match tender_data with
  | .jobj _ =>
    match resp with
    | some v => .ok v
    | none => .ok eligibilityFallback
  | _ => .error (.attributeError "get")

/-- `generate_application_summary` (main.py lines 411-430 = cloud_main.py
249-269).  The prompt calls `tender_details.get(...)` twice before the `try:`
(AttributeError on a non-dict); on success the content is `.strip()`ed; the
fallback re-reads `company_profile.get('company_name', 'Company')` (the key is
always present, so a `None` renders as `"None"`) and
`tender_details.get('title', 'tender')`. -/
def generate_application_summary (resp : Option String) (tender_details : Jv)
    (company_profile : Profile) : Except PyErr String :=
  match tender_details with
  | .jobj fields =>
    match resp with
    | some s => .ok (pyStrip s)
    | none =>
      .ok ("Application summary for " ++ pyOptStr company_profile.company_name
            ++ " applying to " ++ pyStrJ ((lookupField fields "title").getD (.jstr "tender"))
            ++ ". Manual completion required.")
  | _ => .error (.attributeError "get")

/-! ### Pipeline Orchestrator (`main_tender_agent`, main.py lines 452-506 and
cloud_main.py lines 271-327; identical except for the tender source) -/

/-- The per-candidate report block (main.py lines 474-489).  `eligibility` has
a `.get` here only if the caller's `eligibility.get("eligible", True)` already
succeeded, so it is a dict; `', '.join(eligibility.get('reasons', ...))`
raises `TypeError` on an unjoinable value. -/
def renderBlock (i : Nat) (tender : TenderCand) (eligibility : Jv)
    (app_summary : String) : Except PyErr String :=
  match eligibility with
  | .jobj fields =>
    match pyJoinSep ", " ((lookupField fields "reasons").getD (.jarr [.jstr "Review required"])) with
    | .error e => .error e
    | .ok reasons =>
      .ok ("\nTENDER " ++ toString (i + 1) ++ ": " ++ tender.title
            ++ "\nSOURCE: " ++ tender.source
            ++ "\nLINK: " ++ tender.link
            ++ "\nMATCH SCORE: " ++ pyStrJ ((lookupField fields "match_score").getD (.jstr "N/A")) ++ "%"
            ++ "\nDEADLINE: " ++ tender.deadline
            ++ "\n\nELIGIBILITY: "
            ++ (if pyTruthy ((lookupField fields "eligible").getD .jnull) then "‚úÖ Eligible"
                else "‚ùå Not Eligible")
            ++ "\nREASONS: " ++ reasons
            ++ "\n\nAPPLICATION SUMMARY:\n" ++ pyTake 300 app_summary ++ "...\n\n---\n")
  | _ => .error (.attributeError "get")

/-- The `for i, tender in enumerate(tenders[:3])` loop (main.py lines 466-489
= cloud_main.py 287-310); the caller passes `tenders.take 3` and index `i`
starts at 0.  `eligibility.get("eligible", True)` raises `AttributeError`
when `check_eligibility` returned a non-dict JSON value. -/
def processTenders (llm : LLMOracle) (user_profile : Profile) :
    List TenderCand → Nat → Except PyErr (List String)
  | [], _ => .ok []
  | tender :: rest, i =>
    let parsed_tender := parse_tender_document (llm.parseResp i) (strTender tender)
    match check_eligibility (llm.eligResp i) parsed_tender user_profile with
    | .error e => .error e
    | .ok eligibility =>
      match dictGet eligibility "eligible" (.jbool true) with
      | .error e => .error e
      | .ok ev =>
        if pyTruthy ev then
          match generate_application_summary (llm.summResp i) parsed_tender user_profile with
          | .error e => .error e
          | .ok app_summary =>
            match renderBlock i tender eligibility app_summary with
            | .error e => .error e
            | .ok block =>
              match processTenders llm user_profile rest (i + 1) with
              | .error e => .error e
              | .ok results => .ok (block :: results)
        else processTenders llm user_profile rest (i + 1)

/-- The final report (main.py lines 494-506).  The `.get(..., 'Your Company')`
/ `.get(..., 'N/A')` defaults are dead: the keys are always present, and a
`None` value renders as `"None"`. -/
def finalReport (user_profile : Profile) (results : List String) : String :=
  "\nTENDER SEARCH RESULTS FOR: " ++ pyOptStr user_profile.company_name
    ++ "\nINDUSTRY: " ++ pyOptStr user_profile.industry
    ++ "\nLOCATION: " ++ pyOptStr user_profile.location
    ++ "\n\n" ++ joinWith "" results
    ++ "\n\nüìã NEXT STEPS:\n1. Visit the portal links to get complete tender documents\n2. Review eligibility criteria carefully\n3. Prepare required documents\n4. Submit before deadline\n"

def moreDetailsMsg : String :=
  "Please provide more details about your company, industry, and location to find relevant tenders."

namespace Main

/-- `main_tender_agent` of main.py (lines 452-506): live tender source.
`user_profile.get("location", "")` returns the stored value (possibly `None`)
since the key is always present. -/
def main_tender_agent (B : BrowserOracle) (llm : LLMOracle) (query : String) :
    Except PyErr String :=
  let user_profile := parse_user_profile query
  if user_profile.keywords.isEmpty then .ok moreDetailsMsg
  else
    let keywords := joinWith " " (user_profile.keywords.take 2)
    let location := user_profile.location
    match scrape_tender_portals B keywords location with
    | .error e => .error e
    | .ok tenders =>
      if tenders.isEmpty then
        .ok ("No tenders found for keywords: " ++ keywords ++ ". Try different search terms.")
      else
        match processTenders llm user_profile (tenders.take 3) 0 with
        | .error e => .error e
        | .ok results =>
          if results.isEmpty then .ok "No eligible tenders found matching your profile."
          else .ok (finalReport user_profile results)

end Main

namespace CloudMain

/-- `main_tender_agent` of cloud_main.py (lines 271-327): static tender
source, otherwise identical to main.py's orchestrator. -/
def main_tender_agent (llm : LLMOracle) (query : String) : Except PyErr String :=
  let user_profile := parse_user_profile query
  if user_profile.keywords.isEmpty then .ok moreDetailsMsg
  else
    let keywords := joinWith " " (user_profile.keywords.take 2)
    let location := user_profile.location
    let tenders := get_sample_tenders keywords location
    if tenders.isEmpty then
      .ok ("No tenders found for keywords: " ++ keywords ++ ". Try different search terms.")
    else
      match processTenders llm user_profile (tenders.take 3) 0 with
      | .error e => .error e
      | .ok results =>
        if results.isEmpty then .ok "No eligible tenders found matching your profile."
        else .ok (finalReport user_profile results)

end CloudMain

/-! ### Observables and concrete oracles used in the theorem statements -/

/-- A returned report that contains `sub` as a substring. -/
def okContains (r : Except PyErr String) (sub : String) : Bool :=
  match r with
  | .ok s => containsSub s sub
  | .error _ => false

/-- Whether a context-manager call fails with a non-`ImportError`. -/
def isOtherErr : PwCtxOutcome → Bool
  | .otherErr _ => true
  | _ => false

/-- The `reasons` value the report block would join for an eligibility result. -/
def reasonsOf (v : Jv) : Jv :=
  match v with
  | .jobj fields => (lookupField fields "reasons").getD (.jarr [.jstr "Review required"])
  | _ => .jarr [.jstr "Review required"]

/-- An enrichment outcome that keeps the pipeline exception-free: a failure
(degraded document) or a JSON object. -/
def goodParse : Option Jv → Bool
  | none => true
  | some v => v.isObj

/-- An eligibility outcome that keeps the pipeline exception-free: a failure
(fixed default) or a JSON object whose `reasons` value is joinable. -/
def goodElig : Option Jv → Bool
  | none => true
  | some v => v.isObj && exceptOk (pyJoinSep ", " (reasonsOf v))

/-- Whether candidate `t` at loop index `i` passes the orchestrator's
`eligibility.get("eligible", True)` test without an exception. -/
def eligTruthyAt (llm : LLMOracle) (user_profile : Profile) (t : TenderCand) (i : Nat) : Bool :=
  match check_eligibility (llm.eligResp i)
          (parse_tender_document (llm.parseResp i) (strTender t)) user_profile with
  | .error _ => false
  | .ok e =>
    match dictGet e "eligible" (.jbool true) with
    | .error _ => false
    | .ok v => pyTruthy v

/-- Number of candidates the loop deems eligible. -/
def countEligible (llm : LLMOracle) (user_profile : Profile) : List TenderCand → Nat → Nat
  | [], _ => 0
  | t :: rest, i =>
    (if eligTruthyAt llm user_profile t i then 1 else 0)
      + countEligible llm user_profile rest (i + 1)

/-- LLM oracle whose every boundary call fails (LLM down or unparseable). -/
def llmAllFail : LLMOracle :=
  { parseResp := fun _ => none, eligResp := fun _ => none, summResp := fun _ => none }

/-- LLM oracle whose eligibility call succeeds with the valid non-object JSON
`[]` (that is, `llm.invoke` returned the text `"[]"`, and `json.loads "[]"`
is the empty list); the other calls fail. -/
def llmArrayElig : LLMOracle := { llmAllFail with eligResp := fun _ => some (.jarr []) }

/-- LLM oracle whose eligibility call returns a JSON object with no
`"eligible"` key. -/
def llmNoEligKey : LLMOracle :=
  { llmAllFail with eligResp := fun _ => some (.jobj [("match_score", .jint 50)]) }

/-- LLM oracle whose eligibility call returns `{"eligible": false}`. -/
def llmNotEligible : LLMOracle :=
  { llmAllFail with eligResp := fun _ => some (.jobj [("eligible", .jbool false)]) }

def bOk : Except String Unit := .ok ()

/-- Browser oracle: the playwright import fails, so the scraper's
`except ImportError` produces deterministic fallback data. -/
def BImportFail : BrowserOracle :=
  { enter := .importErr, launch := bOk, close := bOk, stop := .ok
    gem := { nav := bOk, wait2 := bOk, results := fun _ => .ok [] }
    epro := { nav := bOk, fill := bOk, click := bOk, wait := bOk, rows := .ok [] }
    si := { nav := bOk, fill := bOk, press := bOk, wait := bOk, results := .ok [] } }

/-- Browser oracle: every operation succeeds but every portal search returns
no results, so nothing is collected. -/
def BAllEmpty : BrowserOracle := { BImportFail with enter := .ok }

/-- Browser oracle: `with sync_playwright()` raises a non-`ImportError`. -/
def BEnterCrash : BrowserOracle :=
  { BImportFail with enter := .otherErr "playwright driver failed to start" }

/-! ## Helper lemmas -/

theorem mem_pySetList (a : String) (seen xs : List String) :
    a ∈ pySetList seen xs ↔ (a ∈ xs ∧ a ∉ seen) := by
  induction xs generalizing seen with
  | nil => simp [pySetList]
  | cons x xs ih =>
    simp only [pySetList]
    by_cases hx : x ∈ seen
    · rw [if_pos hx, ih]
      constructor
      · rintro ⟨h1, h2⟩
        exact ⟨List.mem_cons_of_mem _ h1, h2⟩
      · rintro ⟨h1, h2⟩
        rcases List.mem_cons.mp h1 with rfl | h1
        · exact absurd hx h2
        · exact ⟨h1, h2⟩
    · rw [if_neg hx]
      constructor
      · intro h
        rcases List.mem_cons.mp h with rfl | h
        · exact ⟨List.mem_cons_self _ _, hx⟩
        · rcases (ih (x :: seen)).mp h with ⟨h1, h2⟩
          exact ⟨List.mem_cons_of_mem _ h1, fun hs => h2 (List.mem_cons_of_mem _ hs)⟩
      · rintro ⟨h1, h2⟩
        by_cases hax : a = x
        · exact hax ▸ List.mem_cons_self _ _
        · rcases List.mem_cons.mp h1 with rfl | h1
          · exact absurd rfl hax
          · exact List.mem_cons_of_mem _ ((ih (x :: seen)).mpr
              ⟨h1, fun hs => (List.mem_cons.mp hs).elim hax h2⟩)

theorem listPrefixOf_append (l m : List Char) : listPrefixOf l (l ++ m) = true := by
  induction l with
  | nil => rfl
  | cons c cs ih => simpa [listPrefixOf] using ih

theorem ensureNonEmpty_ne_nil (keywords : String) (l : List TenderCand) :
    ensureNonEmpty keywords l ≠ [] := by
  unfold ensureNonEmpty
  split
  · simp
  · next h => simpa using h

theorem get_sample_tenders_ne_nil (keywords : String) (location : Option String) :
    get_sample_tenders keywords location ≠ [] := by
  unfold get_sample_tenders
  cases location with
  | none => simp
  | some loc => by_cases h : loc = "" <;> simp [h]

/-- Any browser behaviour in which neither the context-manager entry nor the
context-manager exit (`p.stop()`) hard-fails lets `scrape_tender_portals`
return a non-empty list. -/
theorem scrape_total (B : BrowserOracle) (keywords : String) (location : Option String)
    (h : isOtherErr B.enter = false) (hstop : isOtherErr B.stop = false) :
    ∃ l, scrape_tender_portals B keywords location = .ok l ∧ l ≠ [] := by
  unfold scrape_tender_portals
  cases hE : B.enter with
  | importErr => exact ⟨_, rfl, ensureNonEmpty_ne_nil _ _⟩
  | otherErr msg => rw [hE, isOtherErr] at h; exact absurd h (by simp)
  | ok =>
    cases hS : B.stop with
    | importErr => exact ⟨_, rfl, ensureNonEmpty_ne_nil _ _⟩
    | otherErr msg => rw [hS, isOtherErr] at hstop; exact absurd hstop (by simp)
    | ok => exact ⟨_, rfl, ensureNonEmpty_ne_nil _ _⟩

/-- A good enrichment outcome yields a dict. -/
theorem parse_doc_obj (r : Option Jv) (s : String) (h : goodParse r = true) :
    ∃ fs, parse_tender_document r s = .jobj fs := by
  cases r with
  | none => exact ⟨_, rfl⟩
  | some v => cases v <;> first | exact ⟨_, rfl⟩ | simp [goodParse, Jv.isObj] at h

/-- On a dict, `check_eligibility` returns the response or the fixed default. -/
theorem check_eligibility_obj (r : Option Jv) (p : Profile) (fs : List (String × Jv)) :
    check_eligibility r (.jobj fs) p = .ok (r.getD eligibilityFallback) := by
  cases r <;> rfl

/-- A good eligibility outcome (or the fallback) is a dict with a joinable
`reasons` value. -/
theorem elig_result_good (r : Option Jv) (h : goodElig r = true) :
    (r.getD eligibilityFallback).isObj = true
      ∧ exceptOk (pyJoinSep ", " (reasonsOf (r.getD eligibilityFallback))) = true := by
  cases r with
  | none => exact ⟨rfl, rfl⟩
  | some v =>
    simp only [goodElig, Bool.and_eq_true] at h
    exact ⟨h.1, h.2⟩

/-- On a dict, the summary generator never raises. -/
theorem generate_summary_ok (r : Option String) (p : Profile) (fs : List (String × Jv)) :
    ∃ s, generate_application_summary r (.jobj fs) p = .ok s := by
  cases r <;> exact ⟨_, rfl⟩

/-- An `.ok` result exists behind a true `exceptOk`. -/
theorem exceptOk_exists {α : Type} {x : Except PyErr α} (h : exceptOk x = true) :
    ∃ a, x = .ok a := by
  cases x with
  | ok a => exact ⟨a, rfl⟩
  | error e => simp [exceptOk] at h

/-- On a dict with a joinable `reasons` value, the report block renders. -/
theorem renderBlock_ok (i : Nat) (t : TenderCand) (s : String) (fs : List (String × Jv))
    (hj : exceptOk (pyJoinSep ", " (reasonsOf (.jobj fs))) = true) :
    ∃ b, renderBlock i t (.jobj fs) s = .ok b := by
  apply exceptOk_exists
  simp only [reasonsOf] at hj
  cases hjs : pyJoinSep ", " ((lookupField fs "reasons").getD (.jarr [.jstr "Review required"])) with
  | error err => rw [hjs] at hj; simp [exceptOk] at hj
  | ok reasons =>
    simp only [renderBlock]
    rw [hjs]
    rfl

/-- Under good LLM outcomes the per-candidate loop never raises. -/
theorem processTenders_total (llm : LLMOracle) (p : Profile)
    (hp : ∀ i, goodParse (llm.parseResp i) = true)
    (he : ∀ i, goodElig (llm.eligResp i) = true) :
    ∀ (l : List TenderCand) (i : Nat), ∃ bs, processTenders llm p l i = .ok bs := by
  intro l
  induction l with
  | nil => exact fun i => ⟨[], rfl⟩
  | cons t rest ih =>
    intro i
    obtain ⟨fsP, hfsP⟩ := parse_doc_obj (llm.parseResp i) (strTender t) (hp i)
    obtain ⟨hEobj, hEjoin⟩ := elig_result_good (llm.eligResp i) (he i)
    obtain ⟨fsE, hfsE⟩ : ∃ fs, (llm.eligResp i).getD eligibilityFallback = .jobj fs := by
      cases hE : (llm.eligResp i).getD eligibilityFallback <;>
        first | exact ⟨_, rfl⟩ | (rw [hE] at hEobj; simp [Jv.isObj] at hEobj)
    obtain ⟨bs, hbs⟩ := ih (i + 1)
    by_cases hTruthy : pyTruthy ((lookupField fsE "eligible").getD (.jbool true)) = true
    · obtain ⟨s, hs⟩ := generate_summary_ok (llm.summResp i) p fsP
      obtain ⟨b, hb⟩ := renderBlock_ok i t s fsE (by rw [← hfsE]; exact hEjoin)
      refine ⟨b :: bs, ?_⟩
      simp only [processTenders, hfsP, check_eligibility_obj, hfsE, dictGet, hTruthy, if_true,
        hs, hb, hbs]
    · rw [Bool.not_eq_true] at hTruthy
      refine ⟨bs, ?_⟩
      simp only [processTenders, hfsP, check_eligibility_obj, hfsE, dictGet, hTruthy,
        Bool.false_eq_true, if_false, hbs]

/-- The loop's output depends only on the candidates it is given and on the
oracle entries for their indices. -/
theorem processTenders_congr (llm llm' : LLMOracle) (p : Profile) :
    ∀ (m : List TenderCand) (i : Nat),
      (∀ j, i ≤ j → j < i + m.length →
        llm.parseResp j = llm'.parseResp j ∧ llm.eligResp j = llm'.eligResp j
          ∧ llm.summResp j = llm'.summResp j) →
      processTenders llm p m i = processTenders llm' p m i := by
  intro m
  induction m with
  | nil => intro i _; rfl
  | cons t rest ih =>
    intro i h
    obtain ⟨h1, h2, h3⟩ := h i (Nat.le_refl i) (by simp only [List.length_cons]; omega)
    have hrec := ih (i + 1) (fun j hj1 hj2 => by
      refine h j (by omega) ?_
      simp only [List.length_cons]
      omega)
    simp only [processTenders, h1, h2, h3, hrec]

/-- Each block of the loop's output corresponds to exactly one candidate the
`eligibility.get("eligible", True)` test accepted. -/
theorem processTenders_count (llm : LLMOracle) (p : Profile) :
    ∀ (m : List TenderCand) (i : Nat) (bs : List String),
      processTenders llm p m i = .ok bs → bs.length = countEligible llm p m i := by
  intro m
  induction m with
  | nil =>
    intro i bs h
    simp only [processTenders] at h
    injection h with h
    rw [← h]
    rfl
  | cons t rest ih =>
    intro i bs h
    simp only [processTenders] at h
    cases hce : check_eligibility (llm.eligResp i)
        (parse_tender_document (llm.parseResp i) (strTender t)) p with
    | error e => simp only [hce] at h; exact Except.noConfusion h
    | ok e =>
      simp only [hce] at h
      cases hdg : dictGet e "eligible" (.jbool true) with
      | error e2 => simp only [hdg] at h; exact Except.noConfusion h
      | ok ev =>
        simp only [hdg] at h
        by_cases htr : pyTruthy ev = true
        · simp only [htr, if_true] at h
          cases hgs : generate_application_summary (llm.summResp i)
              (parse_tender_document (llm.parseResp i) (strTender t)) p with
          | error e3 => simp only [hgs] at h; exact Except.noConfusion h
          | ok s =>
            simp only [hgs] at h
            cases hrb : renderBlock i t e s with
            | error e4 => simp only [hrb] at h; exact Except.noConfusion h
            | ok b =>
              simp only [hrb] at h
              cases hrec : processTenders llm p rest (i + 1) with
              | error e5 => simp only [hrec] at h; exact Except.noConfusion h
              | ok bs' =>
                simp only [hrec] at h
                injection h with h
                subst h
                have := ih (i + 1) bs' hrec
                simp only [List.length_cons, countEligible, eligTruthyAt, hce, hdg, htr, if_true]
                omega
        · rw [Bool.not_eq_true] at htr
          simp only [htr, Bool.false_eq_true, if_false] at h
          have := ih (i + 1) bs h
          simp only [countEligible, eligTruthyAt, hce, hdg, htr, Bool.false_eq_true, if_false]
          omega

theorem string_data_append (s t : String) : (s ++ t).data = s.data ++ t.data := by
  cases s; cases t; rfl

/-! ## Claims -/

/-- C5: for every input string, when the LLM call or JSON parsing fails
(boundary outcome `none`), `parse_tender_document` does not raise (it is a
total function into `Jv`) and returns the degraded document whose title is
the fixed error title `"Document Parse Error"` and whose description is the
first 200 characters of the input followed by `"..."` — in particular the
description begins with the first 200 characters of the input. -/
theorem C5_enrich_fallback (tender_content : String) :
    parse_tender_document none tender_content =
      .jobj [("title", .jstr "Document Parse Error"),
             ("description", .jstr (pyTake 200 tender_content ++ "...")),
             ("deadline", .jnull), ("budget_range", .jnull),
             ("eligibility_criteria", .jstr "Review document manually"),
             ("application_requirements", .jstr "Review document manually"),
             ("contact_details", .jnull), ("tender_id", .jnull)]
    ∧ listPrefixOf (pyTake 200 tender_content).data
        (pyTake 200 tender_content ++ "...").data = true := by
  refine ⟨rfl, ?_⟩
  rw [string_data_append]
  exact listPrefixOf_append _ _

/-- C6: for every tender document (a dict) and profile, when the LLM call or
JSON parsing fails (boundary outcome `none`), `check_eligibility` returns
exactly the fixed optimistic default `eligible=true, match_score=75,
reasons=["General eligibility assumed"],
missing_requirements=["Manual review required"]`. -/
theorem C6_score_fallback (fields : List (String × Jv)) (user_profile : Profile) :
    check_eligibility none (.jobj fields) user_profile =
      .ok (.jobj [("eligible", .jbool true), ("match_score", .jint 75),
                  ("reasons", .jarr [.jstr "General eligibility assumed"]),
                  ("missing_requirements", .jarr [.jstr "Manual review required"])]) := rfl

/-- C7: for every keywords string the static source returns a non-empty
sequence; with an empty (or absent) location it returns exactly 3 candidates
(one per fixed portal), and for a non-empty location it returns exactly those
3 plus one additional location-tagged candidate. -/
theorem C7_static_fetch (keywords loc : String) :
    (get_sample_tenders keywords none).length = 3
    ∧ (∀ location : Option String, get_sample_tenders keywords location ≠ [])
    ∧ (get_sample_tenders keywords (some "") = get_sample_tenders keywords none)
    ∧ (loc ≠ "" →
        get_sample_tenders keywords (some loc)
          = get_sample_tenders keywords none ++ [locationCand keywords loc]
        ∧ (get_sample_tenders keywords (some loc)).length = 4) := by
  refine ⟨rfl, get_sample_tenders_ne_nil keywords, rfl, fun h => ?_⟩
  have hb : (loc == "") = false := beq_eq_false_iff_ne.mpr h
  exact ⟨by simp [get_sample_tenders, hb], by simp [get_sample_tenders, hb]⟩

/-- Witness for C7 at `keywords = "tech"`, `loc = "Mumbai"`. -/
theorem C7_static_fetch_witness :
    (get_sample_tenders "tech" none).length = 3
    ∧ (get_sample_tenders "tech" (some "Mumbai")).length = 4 :=
  ⟨(C7_static_fetch "tech" "Mumbai").1,
   ((C7_static_fetch "tech" "Mumbai").2.2.2 (by decide)).2⟩

/-- C8: for every query whose extracted profile has an empty keyword list,
both orchestrators return exactly the fixed "need more details" string — for
every browser and LLM oracle, which captures that no tender-source, enricher,
scorer or summary call is ever consulted. -/
theorem C8_empty_keywords (query : String)
    (h : (parse_user_profile query).keywords = []) :
    (∀ (B : BrowserOracle) (llm : LLMOracle),
        Main.main_tender_agent B llm query = .ok moreDetailsMsg)
    ∧ (∀ llm : LLMOracle, CloudMain.main_tender_agent llm query = .ok moreDetailsMsg) := by
  constructor
  · intro B llm
    simp [Main.main_tender_agent, h]
  · intro llm
    simp [CloudMain.main_tender_agent, h]

/-- Witness for C8 at the no-keyword query `"hello"`. -/
theorem C8_empty_keywords_witness :
    Main.main_tender_agent BImportFail llmAllFail "hello" = .ok moreDetailsMsg
    ∧ CloudMain.main_tender_agent llmAllFail "hello" = .ok moreDetailsMsg :=
  ⟨(C8_empty_keywords "hello" (by decide)).1 BImportFail llmAllFail,
   (C8_empty_keywords "hello" (by decide)).2 llmAllFail⟩

/-- C2: for every input text containing at least one industry keyword from
the fixed vocabulary (containment as the code tests it: case-insensitive
substring), every such contained keyword is a member of the returned keyword
set, and the keyword assigned to `industry` is exactly the first contained
keyword in the vocabulary's scan order: it is contained, it is in the keyword
set, and no vocabulary keyword listed before it is contained (stated over
every decomposition `industry_keywords = pre ++ kw0 :: post`).  In
particular, when exactly one vocabulary keyword is contained, that keyword is
both in the keyword set and the `industry` value. -/
theorem C2_industry_keyword (text kw : String)
    (hmem : kw ∈ industry_keywords)
    (hcont : containsSub (pyLower text) (pyLower kw) = true) :
    kw ∈ (parse_user_profile text).keywords
    ∧ ∃ kw0, kw0 ∈ industry_keywords
        ∧ containsSub (pyLower text) (pyLower kw0) = true
        ∧ (parse_user_profile text).industry = some kw0
        ∧ kw0 ∈ (parse_user_profile text).keywords
        ∧ ∀ (pre post : List String), industry_keywords = pre ++ kw0 :: post →
            ∀ kw1 ∈ pre, containsSub (pyLower text) (pyLower kw1) = false := by
  have hkwF : kw ∈ industry_keywords.filter
      (fun keyword => containsSub (pyLower text) (pyLower keyword)) :=
    List.mem_filter.mpr ⟨hmem, hcont⟩
  cases hF : industry_keywords.filter
      (fun keyword => containsSub (pyLower text) (pyLower keyword)) with
  | nil => rw [hF] at hkwF; cases hkwF
  | cons f0 ftl =>
    rw [hF] at hkwF
    have hkeys : (parse_user_profile text).keywords = pySetList []
        ((f0 :: ftl) ++ (findallStages text.data.length text.data false).map pyLower) := by
      simp [parse_user_profile, hF]
    have hmemS : ∀ a, a ∈ (f0 :: ftl) → a ∈ (parse_user_profile text).keywords := by
      intro a ha
      rw [hkeys]
      exact (mem_pySetList a [] _).mpr ⟨List.mem_append_left _ ha, by simp⟩
    have hindustry : (parse_user_profile text).industry = some f0 := by
      simp [parse_user_profile, hF]
    have hf0mem : f0 ∈ industry_keywords.filter
        (fun keyword => containsSub (pyLower text) (pyLower keyword)) := by
      rw [hF]; exact List.mem_cons_self _ _
    have hf0 := List.mem_filter.mp hf0mem
    have hfirst : ∀ (pre post : List String), industry_keywords = pre ++ f0 :: post →
        ∀ kw1 ∈ pre, containsSub (pyLower text) (pyLower kw1) = false := by
      intro pre post hsplit kw1 hkw1
      by_contra hc
      rw [Bool.not_eq_false] at hc
      have hkw1F : kw1 ∈ pre.filter
          (fun keyword => containsSub (pyLower text) (pyLower keyword)) :=
        List.mem_filter.mpr ⟨hkw1, hc⟩
      cases hqp : pre.filter (fun keyword => containsSub (pyLower text) (pyLower keyword)) with
      | nil => rw [hqp] at hkw1F; cases hkw1F
      | cons q0 qtl =>
        have heq : f0 :: ftl
            = (q0 :: qtl) ++ (f0 :: post).filter
                (fun keyword => containsSub (pyLower text) (pyLower keyword)) := by
          rw [← hqp, ← List.filter_append, ← hsplit, hF]
        rw [List.cons_append] at heq
        injection heq with h1 _
        have hq0pre : q0 ∈ pre := by
          have := List.mem_cons_self q0 qtl
          rw [← hqp] at this
          exact (List.mem_filter.mp this).1
        have hnd : industry_keywords.Nodup := by decide
        rw [hsplit] at hnd
        exact (List.nodup_append.mp hnd).2.2 (h1 ▸ hq0pre) (List.mem_cons_self f0 post)
    exact ⟨hmemS kw hkwF, f0, hf0.1, hf0.2, hindustry,
      hmemS f0 (List.mem_cons_self _ _), hfirst⟩

/-- Witness for C2's amended theorem at the text
`"We are a tech startup based in Mumbai"` and keyword `"tech"`. -/
theorem C2_industry_keyword_witness :
    "tech" ∈ (parse_user_profile "We are a tech startup based in Mumbai").keywords
    ∧ ∃ kw0, kw0 ∈ industry_keywords
        ∧ containsSub (pyLower "We are a tech startup based in Mumbai") (pyLower kw0) = true
        ∧ (parse_user_profile "We are a tech startup based in Mumbai").industry = some kw0
        ∧ kw0 ∈ (parse_user_profile "We are a tech startup based in Mumbai").keywords
        ∧ ∀ (pre post : List String), industry_keywords = pre ++ kw0 :: post →
            ∀ kw1 ∈ pre, containsSub (pyLower "We are a tech startup based in Mumbai")
              (pyLower kw1) = false :=
  C2_industry_keyword "We are a tech startup based in Mumbai" "tech" (by decide) (by decide)

/-- C3: end-to-end on `"We are a tech startup based in Mumbai"` with the
static tender source and every LLM boundary call failing (`llmAllFail`, so
each component's fallback applies): the profile has industry `"tech"`,
location `"Mumbai"` and a keyword set containing `"tech"`; the static fetch
(on the exact keyword string and location the orchestrator derives) yields at
least 3 candidates; and the returned report contains the literal substrings
`"TENDER 1:"` and `"NEXT STEPS:"`. -/
theorem C3_end_to_end :
    (parse_user_profile "We are a tech startup based in Mumbai").industry = some "tech"
    ∧ (parse_user_profile "We are a tech startup based in Mumbai").location = some "Mumbai"
    ∧ "tech" ∈ (parse_user_profile "We are a tech startup based in Mumbai").keywords
    ∧ 3 ≤ (get_sample_tenders
        (joinWith " "
          ((parse_user_profile "We are a tech startup based in Mumbai").keywords.take 2))
        (parse_user_profile "We are a tech startup based in Mumbai").location).length
    ∧ okContains (CloudMain.main_tender_agent llmAllFail
        "We are a tech startup based in Mumbai") "TENDER 1:" = true
    ∧ okContains (CloudMain.main_tender_agent llmAllFail
        "We are a tech startup based in Mumbai") "NEXT STEPS:" = true := by
  refine ⟨by decide, by decide, by decide, by decide, by decide, by decide⟩

/-- C4 counterexample: when `with sync_playwright()` fails with an exception
that is not an `ImportError` (a real failure mode of a missing or broken
browser driver), no handler catches it, so `scrape_tender_portals` raises
instead of returning a (non-empty) candidate list — refuting the claim's
"even when the browser subsystem itself fails". -/
theorem C4_counterexample :
    scrape_tender_portals BEnterCrash "tech" none
      = .error (.other "playwright driver failed to start") := rfl

/-- C4 amended: for every keywords string and location, provided any failure
of either playwright context-manager call — the entry or the exit
(`p.stop()`) — is an `ImportError` (every other browser and portal failure
is caught by a nested handler), the live source returns a non-empty candidate
list; and when every portal interaction succeeds but yields nothing, the
otherwise-empty result is replaced by the single generic synthetic
candidate. -/
theorem C4_amended_nonempty (B : BrowserOracle) (keywords : String)
    (location : Option String) (h : isOtherErr B.enter = false)
    (hstop : isOtherErr B.stop = false) :
    (∃ l, scrape_tender_portals B keywords location = .ok l ∧ l ≠ [])
    ∧ scrape_tender_portals BAllEmpty keywords location = .ok [genericCand keywords] :=
  ⟨scrape_total B keywords location h hstop, rfl⟩

/-- Witness for C4's amended theorem at the all-fallback browser oracle. -/
theorem C4_amended_nonempty_witness :
    (∃ l, scrape_tender_portals BImportFail "tech" none = .ok l ∧ l ≠ [])
    ∧ scrape_tender_portals BAllEmpty "tech" none = .ok [genericCand "tech"] :=
  C4_amended_nonempty BImportFail "tech" none rfl rfl

/-- C9: (1) the orchestrator loop's outcome depends only on the first 3
candidates of the source's list and on the oracle outcomes for indices
0, 1, 2 — candidates beyond the first 3 are never enriched, scored or
summarised; (2) when the loop completes without an exception, the report
blocks are in bijection with the candidates (among the processed first 3)
that the `eligibility.get("eligible", True)` test accepted — a not-eligible
candidate contributes no block. -/
theorem C9_first_three :
    (∀ (llm llm' : LLMOracle) (p : Profile) (l l' : List TenderCand),
      l.take 3 = l'.take 3 →
      (∀ j, j < 3 → llm.parseResp j = llm'.parseResp j ∧ llm.eligResp j = llm'.eligResp j
        ∧ llm.summResp j = llm'.summResp j) →
      processTenders llm p (l.take 3) 0 = processTenders llm' p (l'.take 3) 0)
    ∧ (∀ (llm : LLMOracle) (p : Profile) (l : List TenderCand) (bs : List String),
      processTenders llm p (l.take 3) 0 = .ok bs →
      bs.length = countEligible llm p (l.take 3) 0) := by
  constructor
  · intro llm llm' p l l' hl hagree
    rw [hl]
    apply processTenders_congr
    intro j hj1 hj2
    refine hagree j ?_
    have := List.length_take_le 3 l'
    omega
  · intro llm p l bs h
    exact processTenders_count llm p _ 0 bs h

/-- Witness for C9: part 1 at two equal oracles on a singleton list, part 2
on a not-eligible candidate that produces zero blocks. -/
theorem C9_first_three_witness :
    processTenders llmAllFail (parse_user_profile "tech") ([genericCand "tech"].take 3) 0
      = processTenders llmAllFail (parse_user_profile "tech") ([genericCand "tech"].take 3) 0
    ∧ ([] : List String).length
        = countEligible llmNotEligible (parse_user_profile "tech")
            ([genericCand "tech"].take 3) 0 :=
  ⟨C9_first_three.1 llmAllFail llmAllFail (parse_user_profile "tech")
      [genericCand "tech"] [genericCand "tech"] rfl (fun _ _ => ⟨rfl, rfl, rfl⟩),
   C9_first_three.2 llmNotEligible (parse_user_profile "tech") [genericCand "tech"] [] rfl⟩

/-- C10: when the scorer's result is a dict (and the enrichment outcome keeps
the pipeline exception-free), the orchestrator excludes a candidate exactly
when the dict binds `"eligible"` to a falsy value: (1) if the `"eligible"`
key is absent, the candidate is treated as eligible — summarised and given a
report block; (2) a present falsy value excludes it (no block); (3) a present
truthy value includes it. -/
theorem C10_eligible_default (llm : LLMOracle) (p : Profile) (t : TenderCand) (i : Nat)
    (fields : List (String × Jv))
    (hE : llm.eligResp i = some (.jobj fields))
    (hP : goodParse (llm.parseResp i) = true) :
    (lookupField fields "eligible" = none →
      exceptOk (pyJoinSep ", "
        ((lookupField fields "reasons").getD (.jarr [.jstr "Review required"]))) = true →
      ∃ b, processTenders llm p [t] i = .ok [b])
    ∧ (∀ v, lookupField fields "eligible" = some v → pyTruthy v = false →
        processTenders llm p [t] i = .ok [])
    ∧ (∀ v, lookupField fields "eligible" = some v → pyTruthy v = true →
        exceptOk (pyJoinSep ", "
          ((lookupField fields "reasons").getD (.jarr [.jstr "Review required"]))) = true →
        ∃ b, processTenders llm p [t] i = .ok [b]) := by
  obtain ⟨fsP, hfsP⟩ := parse_doc_obj (llm.parseResp i) (strTender t) hP
  refine ⟨?_, ?_, ?_⟩
  · intro habs hjoin
    obtain ⟨s, hs⟩ := generate_summary_ok (llm.summResp i) p fsP
    obtain ⟨b, hb⟩ := renderBlock_ok i t s fields (by simpa [reasonsOf] using hjoin)
    refine ⟨b, ?_⟩
    simp only [processTenders, hfsP, hE, check_eligibility_obj, Option.getD_some, dictGet,
      habs, Option.getD_none, pyTruthy, if_true, hs, hb]
  · intro v hv hfalse
    simp only [processTenders, hfsP, hE, check_eligibility_obj, Option.getD_some, dictGet,
      hv, hfalse, Bool.false_eq_true, if_false]
  · intro v hv htrue hjoin
    obtain ⟨s, hs⟩ := generate_summary_ok (llm.summResp i) p fsP
    obtain ⟨b, hb⟩ := renderBlock_ok i t s fields (by simpa [reasonsOf] using hjoin)
    refine ⟨b, ?_⟩
    simp only [processTenders, hfsP, hE, check_eligibility_obj, Option.getD_some, dictGet,
      hv, htrue, if_true, hs, hb]

/-- Witness for C10: a scorer result `{"match_score": 50}` with no
`"eligible"` key still yields a report block. -/
theorem C10_eligible_default_witness :
    ∃ b, processTenders llmNoEligKey (parse_user_profile "tech") [genericCand "tech"] 0
      = .ok [b] :=
  (C10_eligible_default llmNoEligKey (parse_user_profile "tech") (genericCand "tech") 0
      [("match_score", .jint 50)] rfl rfl).1 rfl rfl

/-- C1 counterexample: `run` can raise.  With the browser falling back to
deterministic sample data (playwright `ImportError`) and the LLM service
answering the eligibility prompt with the text `"[]"` — which `json.loads`
parses successfully into a (non-dict) list — `check_eligibility` returns that
list and the orchestrator's own `eligibility.get("eligible", True)` raises
`AttributeError`, which no handler catches, so `main_tender_agent` raises to
its caller instead of returning a string (the `__main__` loop in main.py
indeed wraps the call in `try/except`). -/
theorem C1_counterexample :
    Main.main_tender_agent BImportFail llmArrayElig "tech"
      = .error (.attributeError "get") := rfl

/-- C1 amended: `run` always terminates with either a string or an exception,
and it returns a string (never raises) provided (i) any failure of either
playwright context-manager call — the entry or the exit (`p.stop()`) — is an
`ImportError`, and (ii) every successfully parsed LLM JSON response is an
object whose `reasons` value — if present in an eligibility result — is
joinable (a string, an object, or an array of strings); the LLM calls may
otherwise fail arbitrarily.  Both orchestrators are covered. -/
theorem C1_amended_no_raise (B : BrowserOracle) (llm : LLMOracle) (query : String)
    (hB : isOtherErr B.enter = false)
    (hBstop : isOtherErr B.stop = false)
    (hp : ∀ i, goodParse (llm.parseResp i) = true)
    (he : ∀ i, goodElig (llm.eligResp i) = true) :
    (∃ s, Main.main_tender_agent B llm query = .ok s)
    ∧ (∃ s, CloudMain.main_tender_agent llm query = .ok s) := by
  constructor
  · simp only [Main.main_tender_agent]
    by_cases hk : (parse_user_profile query).keywords.isEmpty = true
    · exact ⟨_, by rw [if_pos hk]⟩
    · rw [if_neg hk]
      obtain ⟨l, hl, hlne⟩ := scrape_total B
        (joinWith " " ((parse_user_profile query).keywords.take 2))
        (parse_user_profile query).location hB hBstop
      simp only [hl]
      have hle : l.isEmpty = false := by
        cases l with
        | nil => exact absurd rfl hlne
        | cons a as => rfl
      simp only [hle, Bool.false_eq_true, if_false]
      obtain ⟨bs, hbs⟩ := processTenders_total llm (parse_user_profile query) hp he (l.take 3) 0
      simp only [hbs]
      by_cases hbe : bs.isEmpty = true
      · exact ⟨_, by rw [if_pos hbe]⟩
      · exact ⟨_, by rw [if_neg hbe]⟩
  · simp only [CloudMain.main_tender_agent]
    by_cases hk : (parse_user_profile query).keywords.isEmpty = true
    · exact ⟨_, by rw [if_pos hk]⟩
    · rw [if_neg hk]
      have hne := get_sample_tenders_ne_nil
        (joinWith " " ((parse_user_profile query).keywords.take 2))
        (parse_user_profile query).location
      have hle : (get_sample_tenders
          (joinWith " " ((parse_user_profile query).keywords.take 2))
          (parse_user_profile query).location).isEmpty = false := by
        cases h : get_sample_tenders
            (joinWith " " ((parse_user_profile query).keywords.take 2))
            (parse_user_profile query).location with
        | nil => exact absurd h hne
        | cons a as => rfl
      simp only [hle, Bool.false_eq_true, if_false]
      obtain ⟨bs, hbs⟩ := processTenders_total llm (parse_user_profile query) hp he
        ((get_sample_tenders
          (joinWith " " ((parse_user_profile query).keywords.take 2))
          (parse_user_profile query).location).take 3) 0
      simp only [hbs]
      by_cases hbe : bs.isEmpty = true
      · exact ⟨_, by rw [if_pos hbe]⟩
      · exact ⟨_, by rw [if_neg hbe]⟩

/-- Witness for C1's amended theorem: import-failing browser, all LLM calls
failing, query `"tech"`. -/
theorem C1_amended_no_raise_witness :
    (∃ s, Main.main_tender_agent BImportFail llmAllFail "tech" = .ok s)
    ∧ (∃ s, CloudMain.main_tender_agent llmAllFail "tech" = .ok s) :=
  C1_amended_no_raise BImportFail llmAllFail "tech" rfl rfl (fun _ => rfl) (fun _ => rfl)

/-- C2 counterexample: the claim read as universally quantified over the
contained keyword fails.  `"We are a tech startup based in Mumbai"` contains
both `"tech"` and `"ai"` (the latter as a substring of `"Mumbai"`); `"ai"` is
in the returned keyword set but `industry` is `"tech"`, the first contained
keyword in vocabulary-scan order — so the contained keyword `"ai"` is not
the value assigned to the industry field. -/
theorem C2_counterexample :
    "ai" ∈ industry_keywords
    ∧ containsSub (pyLower "We are a tech startup based in Mumbai") (pyLower "ai") = true
    ∧ "ai" ∈ (parse_user_profile "We are a tech startup based in Mumbai").keywords
    ∧ (parse_user_profile "We are a tech startup based in Mumbai").industry ≠ some "ai" := by
  refine ⟨by decide, by decide, by decide, by decide⟩
